import Mathlib

/-
Verification of the VC4/VC5 HDMI encoder driver
(drivers/gpu/drm/vc4/vc4_hdmi.c).

This file is a shallow embedding of the driver's pure computations and of
its stateful enable/disable and audio paths.  Machine integers are modelled
as Nat (bit operations via `&&&`, `|||`, `^^^`, `<<<`) and as Int where the
C code uses signed values (error returns, table indices, timing
subtractions).  Hardware registers whose bit layouts are defined in headers
outside the analysed source are modelled at field granularity (one Lean
structure field per C register field); registers whose full word values are
literal in the source keep those literal words.  Hardware behaviour that
the driver only observes (clock-framework return codes, polling timeouts,
externally packed infoframes) is injected through an explicit environment.
-/

namespace Vc4Hdmi

/-- CEA speaker placement bits, enum hdmi_codec_cea_spk_placement. -/
def FL : Nat := 1 <<< 0

/-- Front Center. -/
def FC : Nat := 1 <<< 1

/-- Front Right. -/
def FR : Nat := 1 <<< 2

/-- Front Left Center. -/
def FLC : Nat := 1 <<< 3

/-- Front Right Center. -/
def FRC : Nat := 1 <<< 4

/-- Rear Left. -/
def RL : Nat := 1 <<< 5

/-- Rear Center. -/
def RC : Nat := 1 <<< 6

/-- Rear Right. -/
def RR : Nat := 1 <<< 7

/-- Rear Left Center. -/
def RLC : Nat := 1 <<< 8

/-- Rear Right Center. -/
def RRC : Nat := 1 <<< 9

/-- Low Frequency Effect. -/
def LFE : Nat := 1 <<< 10

/-- Bitwise complement at the width of the C `unsigned long` computations in
this driver; every mask involved lives far below bit 32, so 32 bits suffice
and the complement width never influences any result below. -/
def compl32 (x : Nat) : Nat := (2 ^ 32 - 1) ^^^ x

/-- One row of struct hdmi_codec_cea_spk_alloc: CEA allocation code,
channel count, required speaker mask. -/
structure SpkAllocEntry where
  ca_id : Int
  n_ch : Nat
  mask : Nat
deriving DecidableEq

/-- The ordered CEA speaker-configuration table hdmi_codec_channel_alloc
(source lines 256-330), in its exact source order: the earlier rows are
preferred by the lookup. -/
def hdmi_codec_channel_alloc : List SpkAllocEntry :=
  [ ⟨0x00, 2, FL ||| FR⟩,
    ⟨0x01, 4, FL ||| FR ||| LFE⟩,
    ⟨0x02, 4, FL ||| FR ||| FC⟩,
    ⟨0x0b, 6, FL ||| FR ||| LFE ||| FC ||| RL ||| RR⟩,
    ⟨0x08, 6, FL ||| FR ||| RL ||| RR⟩,
    ⟨0x09, 6, FL ||| FR ||| LFE ||| RL ||| RR⟩,
    ⟨0x0a, 6, FL ||| FR ||| FC ||| RL ||| RR⟩,
    ⟨0x0f, 8, FL ||| FR ||| LFE ||| FC ||| RL ||| RR ||| RC⟩,
    ⟨0x13, 8, FL ||| FR ||| LFE ||| FC ||| RL ||| RR ||| RLC ||| RRC⟩,
    ⟨0x03, 8, FL ||| FR ||| LFE ||| FC⟩,
    ⟨0x04, 8, FL ||| FR ||| RC⟩,
    ⟨0x05, 8, FL ||| FR ||| LFE ||| RC⟩,
    ⟨0x06, 8, FL ||| FR ||| FC ||| RC⟩,
    ⟨0x07, 8, FL ||| FR ||| LFE ||| FC ||| RC⟩,
    ⟨0x0c, 8, FL ||| FR ||| RC ||| RL ||| RR⟩,
    ⟨0x0d, 8, FL ||| FR ||| LFE ||| RL ||| RR ||| RC⟩,
    ⟨0x0e, 8, FL ||| FR ||| FC ||| RL ||| RR ||| RC⟩,
    ⟨0x10, 8, FL ||| FR ||| RL ||| RR ||| RLC ||| RRC⟩,
    ⟨0x11, 8, FL ||| FR ||| LFE ||| RL ||| RR ||| RLC ||| RRC⟩,
    ⟨0x12, 8, FL ||| FR ||| FC ||| RL ||| RR ||| RLC ||| RRC⟩,
    ⟨0x14, 8, FL ||| FR ||| FLC ||| FRC⟩,
    ⟨0x15, 8, FL ||| FR ||| LFE ||| FLC ||| FRC⟩,
    ⟨0x16, 8, FL ||| FR ||| FC ||| FLC ||| FRC⟩,
    ⟨0x17, 8, FL ||| FR ||| LFE ||| FC ||| FLC ||| FRC⟩,
    ⟨0x18, 8, FL ||| FR ||| RC ||| FLC ||| FRC⟩,
    ⟨0x19, 8, FL ||| FR ||| LFE ||| RC ||| FLC ||| FRC⟩,
    ⟨0x1a, 8, FL ||| FR ||| RC ||| FC ||| FLC ||| FRC⟩,
    ⟨0x1b, 8, FL ||| FR ||| LFE ||| RC ||| FC ||| FLC ||| FRC⟩,
    ⟨0x1c, 8, FL ||| FR ||| RL ||| RR ||| FLC ||| FRC⟩,
    ⟨0x1d, 8, FL ||| FR ||| LFE ||| RL ||| RR ||| FLC ||| FRC⟩,
    ⟨0x1e, 8, FL ||| FR ||| FC ||| RL ||| RR ||| FLC ||| FRC⟩,
    ⟨0x1f, 8, FL ||| FR ||| LFE ||| FC ||| RL ||| RR ||| FLC ||| FRC⟩ ]

/-- The speaker-group expansion table hdmi_codec_eld_spk_alloc_bits
(source lines 335-338): bit i of the ELD speaker-allocation byte enables
this group of speaker-presence bits. -/
def hdmi_codec_eld_spk_alloc_bits : List Nat :=
  [FL ||| FR, LFE, FC, RL ||| RR, RC, FLC ||| FRC, RLC ||| RRC]

/-- hdmi_codec_spk_mask_from_alloc (source lines 332-347): expand the ELD
speaker-allocation byte into a speaker-presence bitmask.  The byte itself
comes from drm_eld_get_spk_alloc, which masks it to 7 bits. -/
def hdmi_codec_spk_mask_from_alloc (spk_alloc : Nat) : Nat :=
  (List.range hdmi_codec_eld_spk_alloc_bits.length).foldl
    (fun spk_mask i =>
      if spk_alloc &&& (1 <<< i) ≠ 0 then
        spk_mask ||| hdmi_codec_eld_spk_alloc_bits.getD i 0
      else
        spk_mask)
    0

/-- Linux EINVAL errno; the driver returns -EINVAL when no allocation row
matches. -/
def EINVAL : Int := 22

/-- Linux ETIMEDOUT errno; wait_for returns -ETIMEDOUT on a polling
deadline. -/
def ETIMEDOUT : Int := 110

/-- Linux ENOSPC errno; the infoframe packer fails with it when the packed
frame does not fit the destination buffer. -/
def ENOSPC : Int := 28

/-- The scanning loop of hdmi_codec_get_ch_alloc_table_idx (source lines
361-370), with its running index made explicit: the unplugged special case
(spk_alloc = 0 together with a zero allocation code) returns the current
index, otherwise the first row with the requested channel count whose
required mask is contained in the presence mask wins. -/
def chAllocScan (spk_alloc spk_mask channels : Nat) :
    Nat → List SpkAllocEntry → Int
  | _, [] => -EINVAL
  | i, cap :: rest =>
    if spk_alloc = 0 ∧ cap.ca_id = 0 then (i : Int)
    else if cap.n_ch ≠ channels then chAllocScan spk_alloc spk_mask channels (i + 1) rest
    else if ¬ (cap.mask = spk_mask &&& cap.mask) then
      chAllocScan spk_alloc spk_mask channels (i + 1) rest
    else (i : Int)

/-- hdmi_codec_get_ch_alloc_table_idx (source lines 349-373).  The ELD
speaker-allocation byte is passed in directly; in the driver it is read
from the connector ELD by the external helper drm_eld_get_spk_alloc, which
masks the stored byte with 0x7f. -/
def hdmi_codec_get_ch_alloc_table_idx (spk_alloc channels : Nat) : Int :=
  chAllocScan spk_alloc (hdmi_codec_spk_mask_from_alloc spk_alloc) channels 0
    hdmi_codec_channel_alloc

/-- The helper for the claimed reading of the lookup: index of the first
table row, in table order, whose channel count equals the request and whose
required mask is a subset of the presence mask; -EINVAL when none exists. -/
def firstMatchIdxAux (spk_mask channels : Nat) :
    Nat → List SpkAllocEntry → Int
  | _, [] => -EINVAL
  | i, cap :: rest =>
    if cap.n_ch = channels ∧ spk_mask &&& cap.mask = cap.mask then (i : Int)
    else firstMatchIdxAux spk_mask channels (i + 1) rest

/-- The claimed reading of hdmi_codec_get_ch_alloc_table_idx, written from
the claim text alone (first row in fixed table order whose channel count
equals the requested count and whose required speaker mask is a subset of
the expanded presence mask), to be compared with the source function. -/
def chAllocFirstMatchSpec (spk_alloc channels : Nat) : Int :=
  firstMatchIdxAux (hdmi_codec_spk_mask_from_alloc spk_alloc) channels 0
    hdmi_codec_channel_alloc

/-- ALSA channel-map position codes (enum snd_pcm_chmap_position, an
external ALSA header): only the codes this driver's tables use are named. -/
def SNDRV_CHMAP_NA : Nat := 1

/-- ALSA position code for Front Left. -/
def SNDRV_CHMAP_FL : Nat := 3

/-- ALSA position code for Front Right. -/
def SNDRV_CHMAP_FR : Nat := 4

/-- ALSA position code for Rear Left. -/
def SNDRV_CHMAP_RL : Nat := 5

/-- ALSA position code for Rear Right. -/
def SNDRV_CHMAP_RR : Nat := 6

/-- ALSA position code for Front Center. -/
def SNDRV_CHMAP_FC : Nat := 7

/-- ALSA position code for LFE. -/
def SNDRV_CHMAP_LFE : Nat := 8

/-- ALSA position code for Rear Center. -/
def SNDRV_CHMAP_RC : Nat := 11

/-- ALSA position code for Front Left Center. -/
def SNDRV_CHMAP_FLC : Nat := 12

/-- ALSA position code for Front Right Center. -/
def SNDRV_CHMAP_FRC : Nat := 13

/-- ALSA position code for Rear Left Center. -/
def SNDRV_CHMAP_RLC : Nat := 14

/-- ALSA position code for Rear Right Center. -/
def SNDRV_CHMAP_RRC : Nat := 15

/-- One struct snd_pcm_chmap_elem: a channel count and a 15-slot position
map (unlisted slots of the C initializer are zero). -/
structure ChmapElem where
  channels : Nat
  map : List Nat
deriving DecidableEq

/-- Pad a C designated-initializer map to the full 15-byte array. -/
def mkChmap (channels : Nat) (m : List Nat) : ChmapElem :=
  ⟨channels, m ++ List.replicate (15 - m.length) 0⟩

/-- hdmi_codec_stereo_chmaps (source lines 123-127), including the
zero terminator row of the C array. -/
def hdmi_codec_stereo_chmaps : List ChmapElem :=
  [ mkChmap 2 [SNDRV_CHMAP_FL, SNDRV_CHMAP_FR],
    mkChmap 0 [] ]

/-- hdmi_codec_8ch_chmaps (source lines 130-247): the multi-channel map
table, ordered so that its index equals the CEA allocation code, including
the zero terminator row of the C array. -/
def hdmi_codec_8ch_chmaps : List ChmapElem :=
  [ mkChmap 2 [SNDRV_CHMAP_FL, SNDRV_CHMAP_FR],
    mkChmap 4 [SNDRV_CHMAP_FL, SNDRV_CHMAP_FR, SNDRV_CHMAP_LFE, SNDRV_CHMAP_NA],
    mkChmap 4 [SNDRV_CHMAP_FL, SNDRV_CHMAP_FR, SNDRV_CHMAP_NA, SNDRV_CHMAP_FC],
    mkChmap 4 [SNDRV_CHMAP_FL, SNDRV_CHMAP_FR, SNDRV_CHMAP_LFE, SNDRV_CHMAP_FC],
    mkChmap 6 [SNDRV_CHMAP_FL, SNDRV_CHMAP_FR, SNDRV_CHMAP_NA, SNDRV_CHMAP_NA,
               SNDRV_CHMAP_RC, SNDRV_CHMAP_NA],
    mkChmap 6 [SNDRV_CHMAP_FL, SNDRV_CHMAP_FR, SNDRV_CHMAP_LFE, SNDRV_CHMAP_NA,
               SNDRV_CHMAP_RC, SNDRV_CHMAP_NA],
    mkChmap 6 [SNDRV_CHMAP_FL, SNDRV_CHMAP_FR, SNDRV_CHMAP_NA, SNDRV_CHMAP_FC,
               SNDRV_CHMAP_RC, SNDRV_CHMAP_NA],
    mkChmap 6 [SNDRV_CHMAP_FL, SNDRV_CHMAP_FR, SNDRV_CHMAP_LFE, SNDRV_CHMAP_FC,
               SNDRV_CHMAP_RC, SNDRV_CHMAP_NA],
    mkChmap 6 [SNDRV_CHMAP_FL, SNDRV_CHMAP_FR, SNDRV_CHMAP_NA, SNDRV_CHMAP_NA,
               SNDRV_CHMAP_RL, SNDRV_CHMAP_RR],
    mkChmap 6 [SNDRV_CHMAP_FL, SNDRV_CHMAP_FR, SNDRV_CHMAP_LFE, SNDRV_CHMAP_NA,
               SNDRV_CHMAP_RL, SNDRV_CHMAP_RR],
    mkChmap 6 [SNDRV_CHMAP_FL, SNDRV_CHMAP_FR, SNDRV_CHMAP_NA, SNDRV_CHMAP_FC,
               SNDRV_CHMAP_RL, SNDRV_CHMAP_RR],
    mkChmap 6 [SNDRV_CHMAP_FL, SNDRV_CHMAP_FR, SNDRV_CHMAP_LFE, SNDRV_CHMAP_FC,
               SNDRV_CHMAP_RL, SNDRV_CHMAP_RR],
    mkChmap 8 [SNDRV_CHMAP_FL, SNDRV_CHMAP_FR, SNDRV_CHMAP_NA, SNDRV_CHMAP_NA,
               SNDRV_CHMAP_RL, SNDRV_CHMAP_RR, SNDRV_CHMAP_RC, SNDRV_CHMAP_NA],
    mkChmap 8 [SNDRV_CHMAP_FL, SNDRV_CHMAP_FR, SNDRV_CHMAP_LFE, SNDRV_CHMAP_NA,
               SNDRV_CHMAP_RL, SNDRV_CHMAP_RR, SNDRV_CHMAP_RC, SNDRV_CHMAP_NA],
    mkChmap 8 [SNDRV_CHMAP_FL, SNDRV_CHMAP_FR, SNDRV_CHMAP_NA, SNDRV_CHMAP_FC,
               SNDRV_CHMAP_RL, SNDRV_CHMAP_RR, SNDRV_CHMAP_RC, SNDRV_CHMAP_NA],
    mkChmap 8 [SNDRV_CHMAP_FL, SNDRV_CHMAP_FR, SNDRV_CHMAP_LFE, SNDRV_CHMAP_FC,
               SNDRV_CHMAP_RL, SNDRV_CHMAP_RR, SNDRV_CHMAP_RC, SNDRV_CHMAP_NA],
    mkChmap 8 [SNDRV_CHMAP_FL, SNDRV_CHMAP_FR, SNDRV_CHMAP_NA, SNDRV_CHMAP_NA,
               SNDRV_CHMAP_RL, SNDRV_CHMAP_RR, SNDRV_CHMAP_RLC, SNDRV_CHMAP_RRC],
    mkChmap 8 [SNDRV_CHMAP_FL, SNDRV_CHMAP_FR, SNDRV_CHMAP_LFE, SNDRV_CHMAP_NA,
               SNDRV_CHMAP_RL, SNDRV_CHMAP_RR, SNDRV_CHMAP_RLC, SNDRV_CHMAP_RRC],
    mkChmap 8 [SNDRV_CHMAP_FL, SNDRV_CHMAP_FR, SNDRV_CHMAP_NA, SNDRV_CHMAP_FC,
               SNDRV_CHMAP_RL, SNDRV_CHMAP_RR, SNDRV_CHMAP_RLC, SNDRV_CHMAP_RRC],
    mkChmap 8 [SNDRV_CHMAP_FL, SNDRV_CHMAP_FR, SNDRV_CHMAP_LFE, SNDRV_CHMAP_FC,
               SNDRV_CHMAP_RL, SNDRV_CHMAP_RR, SNDRV_CHMAP_RLC, SNDRV_CHMAP_RRC],
    mkChmap 8 [SNDRV_CHMAP_FL, SNDRV_CHMAP_FR, SNDRV_CHMAP_NA, SNDRV_CHMAP_NA,
               SNDRV_CHMAP_NA, SNDRV_CHMAP_NA, SNDRV_CHMAP_FLC, SNDRV_CHMAP_FRC],
    mkChmap 8 [SNDRV_CHMAP_FL, SNDRV_CHMAP_FR, SNDRV_CHMAP_LFE, SNDRV_CHMAP_NA,
               SNDRV_CHMAP_NA, SNDRV_CHMAP_NA, SNDRV_CHMAP_FLC, SNDRV_CHMAP_FRC],
    mkChmap 8 [SNDRV_CHMAP_FL, SNDRV_CHMAP_FR, SNDRV_CHMAP_NA, SNDRV_CHMAP_FC,
               SNDRV_CHMAP_NA, SNDRV_CHMAP_NA, SNDRV_CHMAP_FLC, SNDRV_CHMAP_FRC],
    mkChmap 8 [SNDRV_CHMAP_FL, SNDRV_CHMAP_FR, SNDRV_CHMAP_LFE, SNDRV_CHMAP_FC,
               SNDRV_CHMAP_NA, SNDRV_CHMAP_NA, SNDRV_CHMAP_FLC, SNDRV_CHMAP_FRC],
    mkChmap 8 [SNDRV_CHMAP_FL, SNDRV_CHMAP_FR, SNDRV_CHMAP_NA, SNDRV_CHMAP_NA,
               SNDRV_CHMAP_NA, SNDRV_CHMAP_NA, SNDRV_CHMAP_FLC, SNDRV_CHMAP_FRC],
    mkChmap 8 [SNDRV_CHMAP_FL, SNDRV_CHMAP_FR, SNDRV_CHMAP_LFE, SNDRV_CHMAP_NA,
               SNDRV_CHMAP_NA, SNDRV_CHMAP_NA, SNDRV_CHMAP_FLC, SNDRV_CHMAP_FRC],
    mkChmap 8 [SNDRV_CHMAP_FL, SNDRV_CHMAP_FR, SNDRV_CHMAP_NA, SNDRV_CHMAP_FC,
               SNDRV_CHMAP_NA, SNDRV_CHMAP_NA, SNDRV_CHMAP_FLC, SNDRV_CHMAP_FRC],
    mkChmap 8 [SNDRV_CHMAP_FL, SNDRV_CHMAP_FR, SNDRV_CHMAP_LFE, SNDRV_CHMAP_FC,
               SNDRV_CHMAP_NA, SNDRV_CHMAP_NA, SNDRV_CHMAP_FLC, SNDRV_CHMAP_FRC],
    mkChmap 8 [SNDRV_CHMAP_FL, SNDRV_CHMAP_FR, SNDRV_CHMAP_NA, SNDRV_CHMAP_NA,
               SNDRV_CHMAP_NA, SNDRV_CHMAP_NA, SNDRV_CHMAP_FLC, SNDRV_CHMAP_FRC],
    mkChmap 8 [SNDRV_CHMAP_FL, SNDRV_CHMAP_FR, SNDRV_CHMAP_LFE, SNDRV_CHMAP_NA,
               SNDRV_CHMAP_NA, SNDRV_CHMAP_NA, SNDRV_CHMAP_FLC, SNDRV_CHMAP_FRC],
    mkChmap 8 [SNDRV_CHMAP_FL, SNDRV_CHMAP_FR, SNDRV_CHMAP_NA, SNDRV_CHMAP_FC,
               SNDRV_CHMAP_NA, SNDRV_CHMAP_NA, SNDRV_CHMAP_FLC, SNDRV_CHMAP_FRC],
    mkChmap 8 [SNDRV_CHMAP_FL, SNDRV_CHMAP_FR, SNDRV_CHMAP_LFE, SNDRV_CHMAP_FC,
               SNDRV_CHMAP_NA, SNDRV_CHMAP_NA, SNDRV_CHMAP_FLC, SNDRV_CHMAP_FRC],
    mkChmap 0 [] ]

/-- hdmi_codec_eld_chmap (source lines 375-389): pick the full 8-channel
map table when the expanded presence mask has any bit outside the front
stereo pair, otherwise the stereo-only table. -/
def hdmi_codec_eld_chmap (spk_alloc : Nat) : List ChmapElem :=
  if hdmi_codec_spk_mask_from_alloc spk_alloc &&& compl32 (FL ||| FR) ≠ 0 then
    hdmi_codec_8ch_chmaps
  else
    hdmi_codec_stereo_chmaps

/-- The marker stored in audio.chmap_idx when no allocation row matched
(HDMI_CODEC_CHMAP_IDX_UNKNOWN, source line 86). -/
def HDMI_CODEC_CHMAP_IDX_UNKNOWN : Int := -1

/-- The audio bookkeeping fields of struct vc4_hdmi_audio that the
channel-map paths read and write. -/
structure AudioState where
  chmap : Option (List ChmapElem)
  chmap_idx : Int
  channels : Nat
  max_channels : Nat
deriving DecidableEq

/-- The audio fields at device creation: the kernel struct is zero
allocated, so the chmap pointer is null. -/
def initAudioState : AudioState :=
  { chmap := none, chmap_idx := 0, channels := 0, max_channels := 0 }

/-- The chmap-related effect of vc4_hdmi_audio_startup (source lines
1193-1195): fix max_channels at 8 and select the map table from the
current ELD speaker-allocation byte. -/
def audioStartupChmap (spk_alloc : Nat) (s : AudioState) : AudioState :=
  { s with max_channels := 8, chmap := some (hdmi_codec_eld_chmap spk_alloc) }

/-- The chmap_idx resolution at the end of vc4_hdmi_audio_prepare (source
lines 1344-1350): a failed lookup stores the unknown marker, a successful
one stores the matched row's CEA allocation code. -/
def audioPrepareChmapIdx (spk_alloc channels : Nat) : Int :=
  let idx := hdmi_codec_get_ch_alloc_table_idx spk_alloc channels
  if idx < 0 then HDMI_CODEC_CHMAP_IDX_UNKNOWN
  else (hdmi_codec_channel_alloc.getD idx.toNat ⟨0, 0, 0⟩).ca_id

/-- The chmap-related effect of vc4_hdmi_audio_prepare on the audio
state. -/
def audioPrepareChmap (spk_alloc channels : Nat) (s : AudioState) : AudioState :=
  { s with channels := channels,
           chmap_idx := audioPrepareChmapIdx spk_alloc channels }

/-- The element lookup chmap[idx] as an address computation over the
embedded table: defined (some row) exactly when the index lies inside the
array. -/
def chmapLookup (chmap : List ChmapElem) (idx : Int) : Option ChmapElem :=
  if h : 0 ≤ idx ∧ idx.toNat < chmap.length then
    some (chmap.get ⟨idx.toNat, h.2⟩)
  else
    none

/-- What vc4_chmap_ctl_get computes: the map binding taken before the
loop, and the per-slot values the loop stores. -/
structure CtlGetResult where
  mapLookup : Option ChmapElem
  values : List Nat
deriving DecidableEq

/-- vc4_chmap_ctl_get (source lines 1487-1507).  A null chmap pointer
fails with -EINVAL (modelled as none); otherwise the map pointer is
computed from chmap_idx before the loop, and each loop slot stores 0 when
chmap_idx is the unknown marker and map[i] otherwise. -/
def vc4_chmap_ctl_get (s : AudioState) : Option CtlGetResult :=
  match s.chmap with
  | none => none
  | some table =>
    let map := chmapLookup table s.chmap_idx
    some
      { mapLookup := map,
        values :=
          (List.range s.max_channels).map fun i =>
            if s.chmap_idx = HDMI_CODEC_CHMAP_IDX_UNKNOWN then 0
            else ((map.getD ⟨0, []⟩).map).getD i 0 }

/-- The audio states vc4_chmap_ctl_get can observe after one
startup/prepare session.  vc4_hdmi_audio_startup and
vc4_hdmi_audio_prepare each read the speaker-allocation byte from the
connector ELD at their own call time (drm_eld_get_spk_alloc at source
lines 381 and 358), and the ELD is updated asynchronously on hotplug, so
the byte seen at table selection and the byte seen at allocation
resolution are independent inputs. -/
def reachableAudioState (spkStartup spkPrepare channels : Nat) : AudioState :=
  audioPrepareChmap spkPrepare channels (audioStartupChmap spkStartup initAudioState)

/-- The two hardware generations this driver supports: the BCM2835 VC4
variant and the BCM2711 VC5 variants.  The per-variant function table of
struct vc4_hdmi_variant is dispatched on this tag. -/
inductive Gen
  | vc4
  | vc5
deriving DecidableEq

/-- vc4_hdmi_channel_map (source lines 1092-1102): 3 bits per wire
position on the first generation. -/
def vc4_hdmi_channel_map (channel_mask : Nat) : Nat :=
  (List.range 8).foldl
    (fun channel_map i =>
      if channel_mask &&& (1 <<< i) ≠ 0 then channel_map ||| (i <<< (3 * i))
      else channel_map)
    0

/-- vc5_hdmi_channel_map (source lines 1104-1114): 4 bits per wire
position on the second generation. -/
def vc5_hdmi_channel_map (channel_mask : Nat) : Nat :=
  (List.range 8).foldl
    (fun channel_map i =>
      if channel_mask &&& (1 <<< i) ≠ 0 then channel_map ||| (i <<< (4 * i))
      else channel_map)
    0

/-- The MAI sample-rate codes of sample_rate_to_mai_fmt; the numeric
register encodings live in a header outside the analysed source, so the
codes are kept symbolic. -/
inductive MaiSampleRateCode
  | notIndicated
  | r8000
  | r11025
  | r12000
  | r16000
  | r22050
  | r24000
  | r32000
  | r44100
  | r48000
  | r64000
  | r88200
  | r96000
  | r128000
  | r176400
  | r192000
deriving DecidableEq

/-- sample_rate_to_mai_fmt (source lines 1234-1271): the ~15 standard
rates map to their codes, everything else to the not-indicated code. -/
def sample_rate_to_mai_fmt (samplerate : Nat) : MaiSampleRateCode :=
  match samplerate with
  | 8000 => .r8000
  | 11025 => .r11025
  | 12000 => .r12000
  | 16000 => .r16000
  | 22050 => .r22050
  | 24000 => .r24000
  | 32000 => .r32000
  | 44100 => .r44100
  | 48000 => .r48000
  | 64000 => .r64000
  | 88200 => .r88200
  | 96000 => .r96000
  | 128000 => .r128000
  | 176400 => .r176400
  | 192000 => .r192000
  | _ => .notIndicated

/-- The two MAI audio framings vc4_hdmi_audio_prepare chooses between:
compressed/high-bit-rate and PCM. -/
inductive MaiFormat
  | hbr
  | pcm
deriving DecidableEq

/-- The IEC958 channel-status byte-0 non-audio flag (IEC958_AES0_NONAUDIO
from the external sound/asoundef.h header). -/
def IEC958_AES0_NONAUDIO : Nat := 0x02

/-- The field content of the HDMI_CRP_CFG write in vc4_hdmi_set_n_cts. -/
structure CrpCfg where
  externalCtsEn : Bool
  n : Nat
deriving DecidableEq

/-- The three register writes of vc4_hdmi_set_n_cts. -/
structure NCtsWrites where
  crpCfg : CrpCfg
  cts_0 : Nat
  cts_1 : Nat
deriving DecidableEq

/-- vc4_hdmi_set_n_cts (source lines 1134-1159): N = 128 * rate / 1000,
CTS = (mode clock in kHz * 1000) * N / (128 * rate), all integer
division; N goes into the CRP configuration together with the external-CTS
enable flag, and the single CTS value is written to both CTS registers. -/
def vc4_hdmi_set_n_cts (samplerate modeClockKhz : Nat) : NCtsWrites :=
  let n := 128 * samplerate / 1000
  let cts := modeClockKhz * 1000 * n / (128 * samplerate)
  { crpCfg := { externalCtsEn := true, n := n },
    cts_0 := cts,
    cts_1 := cts }

/-- The field content of the HDMI_AUDIO_PACKET_CONFIG write in
vc4_hdmi_audio_prepare. -/
structure AudioPacketConfig where
  zeroDataOnSampleFlat : Bool
  zeroDataOnInactiveChannels : Bool
  bFrameIdentifier : Nat
  ceaMask : Nat
deriving DecidableEq

/-- The register and bookkeeping outputs of vc4_hdmi_audio_prepare that
the claims inspect. -/
structure PrepResult where
  maiSampleRate : MaiSampleRateCode
  maiAudioFormat : MaiFormat
  channelMask : Nat
  audioPacketConfig : AudioPacketConfig
  maiChannelMap : Nat
  nCts : NCtsWrites
  chmap_idx : Int
deriving DecidableEq

/-- vc4_hdmi_audio_prepare (source lines 1274-1353), as the values it
computes and programs.  The MAI clock divider programming
(vc4_hdmi_audio_set_mai_clock) uses the kernel's external
rational-approximation library and is outside the claims, so it is not
part of this result; channels, samplerate and the IEC958 status byte come
from the ALSA runtime, the ELD speaker-allocation byte and the mode clock
from the connector and CRTC state. -/
def vc4_hdmi_audio_prepare (gen : Gen)
    (spk_alloc channels samplerate iec0 modeClockKhz : Nat) : PrepResult :=
  let mai_sample_rate := sample_rate_to_mai_fmt samplerate
  let mai_audio_format :=
    if iec0 &&& IEC958_AES0_NONAUDIO ≠ 0 ∧ channels = 8 then MaiFormat.hbr
    else MaiFormat.pcm
  let channel_mask := (1 <<< channels) - 1
  let audio_packet_config :=
    { zeroDataOnSampleFlat := true,
      zeroDataOnInactiveChannels := true,
      bFrameIdentifier := 0x8,
      ceaMask := channel_mask }
  let channel_map :=
    match gen with
    | .vc4 => vc4_hdmi_channel_map channel_mask
    | .vc5 => vc5_hdmi_channel_map channel_mask
  { maiSampleRate := mai_sample_rate,
    maiAudioFormat := mai_audio_format,
    channelMask := channel_mask,
    audioPacketConfig := audio_packet_config,
    maiChannelMap := channel_map,
    nCts := vc4_hdmi_set_n_cts samplerate modeClockKhz,
    chmap_idx := audioPrepareChmapIdx spk_alloc channels }

/-- The fields of struct drm_display_mode this driver reads: clock in kHz,
horizontal geometry (plain fields), vertical geometry (the crtc_ fields
the timing programmers use), and the relevant mode flags. -/
structure Mode where
  clock : Nat
  hdisplay : Nat
  hsync_start : Nat
  hsync_end : Nat
  htotal : Nat
  crtc_vdisplay : Nat
  crtc_vsync_start : Nat
  crtc_vsync_end : Nat
  crtc_vtotal : Nat
  dblclk : Bool
  interlace : Bool
  phsync : Bool
  pvsync : Bool
deriving DecidableEq

/-- VC4_HSM_CLOCK (source line 84): the fixed first-generation HSM rate. -/
def VC4_HSM_CLOCK : Nat := 163682864

/-- vc4_hdmi_calc_hsm_clock (source lines 1071-1079): the first generation
always uses the firmware's fixed HSM rate, whatever the pixel rate. -/
def vc4_hdmi_calc_hsm_clock (pixel_rate : Nat) : Nat :=
  VC4_HSM_CLOCK

/-- vc5_hdmi_calc_hsm_clock (source lines 1081-1090): at least 108 MHz,
otherwise (pixel_rate / 100) * 101 with C integer division performed
before the multiplication. -/
def vc5_hdmi_calc_hsm_clock (pixel_rate : Nat) : Nat :=
  max 108000000 (pixel_rate / 100 * 101)

/-- The HSM formula as the claim words it, pixel_rate multiplied by
exactly 1.01 (expressed over the integers as pixel_rate * 101 / 100,
rounding the exact rational down), for comparison with the source
formula. -/
def vc5HsmClockSpecFormula (pixel_rate : Nat) : Nat :=
  max 108000000 (pixel_rate * 101 / 100)

/-- The VERTA register fields, common shape for both generations. -/
structure VertaVals where
  vsp : Int
  vfp : Int
  val : Int
deriving DecidableEq

/-- The VERTB register fields, common shape for both generations. -/
structure VertbVals where
  vspo : Int
  vbp : Int
deriving DecidableEq

/-- The timing-register fields vc4_hdmi_set_timings computes, one Lean
field per C register field (the bit packing of these fields lives in a
header outside the analysed source, therefore the words are modelled at
field granularity). -/
structure Vc4TimingVals where
  horzaVpos : Bool
  horzaHpos : Bool
  horzaHap : Int
  horzbHbp : Int
  horzbHsp : Int
  horzbHfp : Int
  verta0 : VertaVals
  verta1 : VertaVals
  vertb0 : VertbVals
  vertb1 : VertbVals
deriving DecidableEq

/-- The timing-register fields vc5_hdmi_set_timings computes; the second
generation moves the horizontal front porch into HORZA and additionally
programs the VEC crossbar and the clock-stop register. -/
structure Vc5TimingVals where
  xbar : Nat
  horzaVpos : Bool
  horzaHpos : Bool
  horzaHap : Int
  horzaHfp : Int
  horzbHbp : Int
  horzbHsp : Int
  verta0 : VertaVals
  verta1 : VertaVals
  vertb0 : VertbVals
  vertb1 : VertbVals
  clockStop : Nat
deriving DecidableEq

/-- The timing-field computation of vc4_hdmi_set_timings (source lines
774-821): subtractions are C int arithmetic, hence Int here; pixel-repeat
doubles the horizontal quantities; VERTB0 (even field) subtracts one extra
line when interlaced; both VERTA registers receive the same value. -/
def vc4TimingVals (m : Mode) : Vc4TimingVals :=
  let pixel_rep : Int := if m.dblclk then 2 else 1
  let interlaced : Int := if m.interlace then 1 else 0
  let verta : VertaVals :=
    { vsp := (m.crtc_vsync_end : Int) - m.crtc_vsync_start,
      vfp := (m.crtc_vsync_start : Int) - m.crtc_vdisplay,
      val := m.crtc_vdisplay }
  let vertb : VertbVals :=
    { vspo := 0, vbp := (m.crtc_vtotal : Int) - m.crtc_vsync_end }
  let vertb_even : VertbVals :=
    { vspo := 0, vbp := (m.crtc_vtotal : Int) - m.crtc_vsync_end - interlaced }
  { horzaVpos := m.pvsync,
    horzaHpos := m.phsync,
    horzaHap := (m.hdisplay : Int) * pixel_rep,
    horzbHbp := ((m.htotal : Int) - m.hsync_end) * pixel_rep,
    horzbHsp := ((m.hsync_end : Int) - m.hsync_start) * pixel_rep,
    horzbHfp := ((m.hsync_start : Int) - m.hdisplay) * pixel_rep,
    verta0 := verta,
    verta1 := verta,
    vertb0 := vertb_even,
    vertb1 := vertb }

/-- The timing-field computation of vc5_hdmi_set_timings (source lines
823-873): the same derived quantities as the first generation, plus the
fixed crossbar word 0x354021 and a zero clock-stop write. -/
def vc5TimingVals (m : Mode) : Vc5TimingVals :=
  let pixel_rep : Int := if m.dblclk then 2 else 1
  let interlaced : Int := if m.interlace then 1 else 0
  let verta : VertaVals :=
    { vsp := (m.crtc_vsync_end : Int) - m.crtc_vsync_start,
      vfp := (m.crtc_vsync_start : Int) - m.crtc_vdisplay,
      val := m.crtc_vdisplay }
  let vertb : VertbVals :=
    { vspo := 0, vbp := (m.crtc_vtotal : Int) - m.crtc_vsync_end }
  let vertb_even : VertbVals :=
    { vspo := 0, vbp := (m.crtc_vtotal : Int) - m.crtc_vsync_end - interlaced }
  { xbar := 0x354021,
    horzaVpos := m.pvsync,
    horzaHpos := m.phsync,
    horzaHap := (m.hdisplay : Int) * pixel_rep,
    horzaHfp := ((m.hsync_start : Int) - m.hdisplay) * pixel_rep,
    horzbHbp := ((m.htotal : Int) - m.hsync_end) * pixel_rep,
    horzbHsp := ((m.hsync_end : Int) - m.hsync_start) * pixel_rep,
    verta0 := verta,
    verta1 := verta,
    vertb0 := vertb_even,
    vertb1 := vertb,
    clockStop := 0 }

/-- The timing registers of the device: untouched at reset, or written by
one of the two generation-specific programmers. -/
inductive TimingRegsWritten
  | noneYet
  | v4 (t : Vc4TimingVals)
  | v5 (t : Vc5TimingVals)
deriving DecidableEq

/-- The RAM_PACKET_CONFIG register at field granularity: the global
packet-RAM enable flag (VC4_HDMI_RAM_PACKET_ENABLE) and the per-slot
enable bits BIT(packet_id), kept as a bitmask indexed by packet id. -/
structure RamPacketConfig where
  enableFlag : Bool
  slots : Nat
deriving DecidableEq

/-- The VID_CTL register at field granularity. -/
structure VidCtl where
  enable : Bool
  underflowEnable : Bool
  frameCounterReset : Bool
  vsyncLow : Bool
  hsyncLow : Bool
deriving DecidableEq

/-- The writable SCHEDULER_CONTROL fields the driver toggles; the
HDMI_ACTIVE status bit is hardware driven and is observed only through
the polling environment. -/
structure SchedulerControl where
  manualFormat : Bool
  ignoreVsyncPredicts : Bool
  modeHdmi : Bool
  vertAlwaysKeepout : Bool
deriving DecidableEq

/-- The writable FIFO_CTL fields the driver toggles. -/
structure FifoCtl where
  masterSlaveN : Bool
  recenter : Bool
deriving DecidableEq

/-- The CSC coefficient-pair registers; the words written are literal in
the source. -/
structure CscCoeffs where
  c12_11 : Nat
  c14_13 : Nat
  c22_21 : Nat
  c24_23 : Nat
  c32_31 : Nat
  c34_33 : Nat
deriving DecidableEq

/-- The CSC control register: untouched, the first-generation value (BGR
order always, plus the enable/RGB2YCC/custom-mode bundle when limited
range is squashed; the field encodings live in an external header), or
the second-generation literal word. -/
inductive CscCtl
  | untouched
  | v4 (enable : Bool)
  | v5 (word : Nat)
deriving DecidableEq

/-- Events the driver logs with DRM_ERROR / WARN while enabling,
disabling and writing infoframes. -/
inductive LogTag
  | powerGetError
  | pixelSetRateError
  | pixelEnableError
  | hsmSetRateError
  | hsmEnableError
  | packetRamOffWarn
  | infoframeIdleError (packet_id : Nat)
  | infoframeStartError (packet_id : Nat)
  | hdmiActiveWarn
  | hdmiInactiveWarn
  | hdmiActiveWarnOn
  | recenterWarn
  | powerPutError
deriving DecidableEq

/-- The device and driver state the enable/disable and infoframe paths
touch: the power-domain usage count, the two clocks, the register fields
modelled above, the packet-RAM write log (byte offset and 32-bit word, in
program order), and the log of reported errors and warnings. -/
structure Dev where
  powerRefs : Nat
  pixelClkOn : Bool
  hsmClkOn : Bool
  pixelClkRate : Nat
  hsmClkRate : Nat
  ramPacketConfig : RamPacketConfig
  packetRam : List (Nat × Nat)
  vidCtl : VidCtl
  sched : SchedulerControl
  fifoCtl : FifoCtl
  timingRegs : TimingRegsWritten
  cscCtl : CscCtl
  cscCoeffs : Option CscCoeffs
  swResetPulsed : Bool
  dvpCtl : Option Nat
  phyInited : Bool
  phyOn : Bool
  limitedRgbRange : Bool
  log : List LogTag
deriving DecidableEq

/-- The device state before any enable: zeroed software state, clocks off,
no power reference held. -/
def initDev : Dev :=
  { powerRefs := 0,
    pixelClkOn := false,
    hsmClkOn := false,
    pixelClkRate := 0,
    hsmClkRate := 0,
    ramPacketConfig := { enableFlag := false, slots := 0 },
    packetRam := [],
    vidCtl := ⟨false, false, false, false, false⟩,
    sched := ⟨false, false, false, false⟩,
    fifoCtl := ⟨false, false⟩,
    timingRegs := .noneYet,
    cscCtl := .untouched,
    cscCoeffs := none,
    swResetPulsed := false,
    dvpCtl := none,
    phyInited := false,
    phyOn := false,
    limitedRgbRange := false,
    log := [] }

/-- The hardware and collaborator behaviour an enable/disable run observes:
return codes of the power and clock providers, which polling waits exceed
their deadline, the externally packed infoframe byte strings, and the
power-release return code. -/
structure Env where
  pmGetSyncRet : Int
  pixelSetRateRet : Int
  pixelEnableRet : Int
  hsmSetRateRet : Int
  hsmEnableRet : Int
  packetIdleTimesOut : Bool
  packetStartTimesOut : Bool
  hdmiActiveTimesOut : Bool
  recenterTimesOut : Bool
  aviBytes : List Nat
  spdBytes : List Nat
  audioBytes : List Nat
  pmPutRet : Int
deriving DecidableEq

/-- The wait_for polling combinator's result as the driver sees it: 0 on
success, -ETIMEDOUT past the deadline. -/
def wait_for_ret (timesOut : Bool) : Int :=
  if timesOut then -ETIMEDOUT else 0

/-- Clear one slot bit of the per-packet enable mask (the C expression
config & ~BIT(packet_id) at 32-bit register width). -/
def clearBit32 (x i : Nat) : Nat :=
  x &&& compl32 (1 <<< i)

/-- Modelled from the spec: VC4_HDMI_PACKET_STRIDE, the fixed per-slot
stride of the packet RAM, is defined in this repository's register header
(vc4_hdmi_regs.h), which is not under the analysed sources; the spec fixes
only that the stride is a constant.  Its value in the register layout is
0x24 bytes (nine 32-bit words per numbered slot). -/
def VC4_HDMI_PACKET_STRIDE : Nat := 0x24

/-- Modelled from the spec: hdmi_infoframe_pack (the external serializer
in drivers/video/hdmi.c) validates that the packed frame fits the
destination buffer and fails otherwise, returning the packed length on
success.  The serialized frame itself is an external input, carried as its
byte string. -/
def hdmi_infoframe_pack (bytes : List Nat) (bufSize : Nat) : Int :=
  if bytes.length > bufSize then -ENOSPC else (bytes.length : Int)

/-- The loop counter values of the 7-bytes-per-iteration copy loop in
vc4_hdmi_write_infoframe (for i = 0; i < len; i += 7): the multiples of 7
below len. -/
def chunkStarts (len : Nat) : List Nat :=
  (List.range len).filter fun i => i % 7 = 0

/-- The first word of a copy-loop iteration: bytes i, i+1, i+2 in the low
three octets. -/
def packWord3 (bytes : List Nat) (i : Nat) : Nat :=
  bytes.getD i 0 ||| (bytes.getD (i + 1) 0 <<< 8) ||| (bytes.getD (i + 2) 0 <<< 16)

/-- The second word of a copy-loop iteration: bytes i+3 .. i+6. -/
def packWord4 (bytes : List Nat) (i : Nat) : Nat :=
  bytes.getD (i + 3) 0 ||| (bytes.getD (i + 4) 0 <<< 8) |||
    (bytes.getD (i + 5) 0 <<< 16) ||| (bytes.getD (i + 6) 0 <<< 24)

/-- The packet-RAM writes of the copy loop: per iteration i the two words
at offsets packet_reg + 8 * (i / 7) and 4 past it. -/
def ramWrites (bytes : List Nat) (len : Nat) (packet_reg : Nat) : List (Nat × Nat) :=
  (chunkStarts len).flatMap fun i =>
    [(packet_reg + i / 7 * 8, packWord3 bytes i),
     (packet_reg + i / 7 * 8 + 4, packWord4 bytes i)]

/-- vc4_hdmi_stop_packet (source lines 534-545): clear the slot's enable
bit, then poll for the hardware to report the slot idle; returns the
wait_for result. -/
def vc4_hdmi_stop_packet (e : Env) (frameType : Nat) (d : Dev) : Dev × Int :=
  let packet_id := frameType - 0x80
  let d :=
    { d with
      ramPacketConfig :=
        { d.ramPacketConfig with
          slots := clearBit32 d.ramPacketConfig.slots packet_id } }
  (d, wait_for_ret e.packetIdleTimesOut)

/-- vc4_hdmi_write_infoframe (source lines 547-596).  The packet-RAM base
offset of the slot bank is resolved through the variant register table (an
external header) and only the slot-relative layout matters here, so the
bank base is taken as offset zero.  A warning is logged when the packet
RAM is off; a packing failure returns silently; a stop-packet timeout logs
an error and abandons the write; otherwise the copy loop fills the slot,
the slot enable bit is set, and a start timeout is logged. -/
def vc4_hdmi_write_infoframe (e : Env) (frameType : Nat) (bytes : List Nat)
    (d : Dev) : Dev :=
  let packet_id := frameType - 0x80
  let packet_reg := VC4_HDMI_PACKET_STRIDE * packet_id
  let d :=
    if ¬ d.ramPacketConfig.enableFlag then
      { d with log := d.log ++ [.packetRamOffWarn] }
    else d
  let len := hdmi_infoframe_pack bytes VC4_HDMI_PACKET_STRIDE
  if len < 0 then d
  else
    let r := vc4_hdmi_stop_packet e frameType d
    let d := r.1
    if r.2 ≠ 0 then { d with log := d.log ++ [.infoframeIdleError packet_id] }
    else
      let d := { d with packetRam := d.packetRam ++ ramWrites bytes len.toNat packet_reg }
      let d :=
        { d with
          ramPacketConfig :=
            { d.ramPacketConfig with
              slots := d.ramPacketConfig.slots ||| (1 <<< packet_id) } }
      if wait_for_ret e.packetStartTimesOut ≠ 0 then
        { d with log := d.log ++ [.infoframeStartError packet_id] }
      else d

/-- The HDMI infoframe type bytes (external hdmi.h): AVI 0x82, SPD 0x83,
Audio 0x84; the slot number is the type byte minus 0x80. -/
def HDMI_INFOFRAME_TYPE_AVI : Nat := 0x82

/-- SPD infoframe type byte. -/
def HDMI_INFOFRAME_TYPE_SPD : Nat := 0x83

/-- Audio infoframe type byte. -/
def HDMI_INFOFRAME_TYPE_AUDIO : Nat := 0x84

/-- vc4_hdmi_set_infoframes (source lines 665-677): write the AVI and SPD
frames, and re-write the audio frame when a stream was already active.
The frame construction helpers are external (drm core and hdmi.c); their
packed outputs are the environment's byte strings. -/
def vc4_hdmi_set_infoframes (e : Env) (streaming : Bool) (d : Dev) : Dev :=
  let d := vc4_hdmi_write_infoframe e HDMI_INFOFRAME_TYPE_AVI e.aviBytes d
  let d := vc4_hdmi_write_infoframe e HDMI_INFOFRAME_TYPE_SPD e.spdBytes d
  if streaming then vc4_hdmi_write_infoframe e HDMI_INFOFRAME_TYPE_AUDIO e.audioBytes d
  else d

/-- vc4_hdmi_set_timings (source lines 774-821) as a device update: the
timing registers receive the mode-derived fields, and the full VID_CTL
write leaves only the two sync-polarity bits set. -/
def vc4_hdmi_set_timings (m : Mode) (d : Dev) : Dev :=
  { d with
    timingRegs := .v4 (vc4TimingVals m),
    vidCtl :=
      { enable := false,
        underflowEnable := false,
        frameCounterReset := false,
        vsyncLow := !m.pvsync,
        hsyncLow := !m.phsync } }

/-- vc5_hdmi_set_timings (source lines 823-873) as a device update, with
the same VID_CTL write as the first generation. -/
def vc5_hdmi_set_timings (m : Mode) (d : Dev) : Dev :=
  { d with
    timingRegs := .v5 (vc5TimingVals m),
    vidCtl :=
      { enable := false,
        underflowEnable := false,
        frameCounterReset := false,
        vsyncLow := !m.pvsync,
        hsyncLow := !m.phsync } }

/-- vc4_hdmi_csc_setup (source lines 700-733): when enabling, program the
limited-range squash coefficients; the control word always carries the BGR
order and carries the enable bundle only when enabling. -/
def vc4_hdmi_csc_setup (enable : Bool) (d : Dev) : Dev :=
  let d :=
    if enable then
      { d with
        cscCoeffs :=
          some
            { c12_11 := 0x000,
              c14_13 := (0x100 <<< 16) ||| 0x6e0,
              c22_21 := 0x6e0 <<< 16,
              c24_23 := 0x100 <<< 16,
              c32_31 := 0x6e0,
              c34_33 := 0x100 <<< 16 } }
    else d
  { d with cscCtl := .v4 enable }

/-- vc5_hdmi_csc_setup (source lines 735-772): both branches program the
matrix (squash or unity) and the literal control word 0x07. -/
def vc5_hdmi_csc_setup (enable : Bool) (d : Dev) : Dev :=
  let d :=
    if enable then
      { d with
        cscCoeffs :=
          some
            { c12_11 := 0x1b80,
              c14_13 := 0x0400 <<< 16,
              c22_21 := 0x1b80 <<< 16,
              c24_23 := 0x0400 <<< 16,
              c32_31 := 0x0000,
              c34_33 := (0x0400 <<< 16) ||| 0x1b80 } }
    else
      { d with
        cscCoeffs :=
          some
            { c12_11 := 0x2000,
              c14_13 := 0x0000,
              c22_21 := 0x2000 <<< 16,
              c24_23 := 0x0000,
              c32_31 := 0x0000,
              c34_33 := 0x2000 } }
  { d with cscCtl := .v5 0x07 }

/-- vc4_hdmi_reset (source lines 403-410): pulse the software-reset
register (its bit encodings live in an external header). -/
def vc4_hdmi_reset_hw (d : Dev) : Dev :=
  { d with swResetPulsed := true }

/-- vc5_hdmi_reset (source lines 412-417): trip the external reset line
and zero DVP_CTL. -/
def vc5_hdmi_reset_hw (d : Dev) : Dev :=
  { d with dvpCtl := some 0 }

/-- Modelled from the spec: the per-variant PHY hook set (init, disable,
rng enable/disable) lives in this repository outside the analysed sources
(vc4_hdmi_phy.c); the spec treats it as an abstract capability interface,
so the hooks are modelled as switching the PHY state flags. -/
def phyInitHook (d : Dev) : Dev :=
  { d with phyInited := true, phyOn := true }

/-- Modelled from the spec: the PHY disable hook, present only on the
first-generation variant's function table. -/
def phyDisableHook (d : Dev) : Dev :=
  { d with phyOn := false }

/-- Where vc4_hdmi_encoder_enable stopped: one constructor per early
return plus the completed run. -/
inductive EnableOutcome
  | powerFailed
  | pixelSetFailed
  | pixelEnableFailed
  | hsmSetFailed
  | hsmEnableFailed
  | completed
deriving DecidableEq

set_option maxHeartbeats 1600000 in
/-- The post-clock tail of vc4_hdmi_encoder_enable (source lines 917-1024):
variant reset and PHY init, scheduler setup, timing programming, CSC
selection from HDMI capability and the mode's default quantization range,
video enable, HDMI/DVI scheduler switch with its advisory polls, and - on
the HDMI path - packet-RAM enable, infoframe writes and the FIFO recenter
pulse sequence with its advisory poll. -/
def vc4_hdmi_enable_hw (gen : Gen) (e : Env) (m : Mode)
    (hdmiMonitor quantLimited streaming : Bool) (d : Dev) : Dev :=
  let d :=
    match gen with
    | .vc4 => vc4_hdmi_reset_hw d
    | .vc5 => vc5_hdmi_reset_hw d
  let d := phyInitHook d
  let d := { d with vidCtl := ⟨false, false, false, false, false⟩ }
  let d := { d with sched := { d.sched with manualFormat := true, ignoreVsyncPredicts := true } }
  let d :=
    match gen with
    | .vc4 => vc4_hdmi_set_timings m d
    | .vc5 => vc5_hdmi_set_timings m d
  let d :=
    if hdmiMonitor ∧ quantLimited then
      let d :=
        match gen with
        | .vc4 => vc4_hdmi_csc_setup true d
        | .vc5 => vc5_hdmi_csc_setup true d
      { d with limitedRgbRange := true }
    else
      let d :=
        match gen with
        | .vc4 => vc4_hdmi_csc_setup false d
        | .vc5 => vc5_hdmi_csc_setup false d
      { d with limitedRgbRange := false }
  let d := { d with fifoCtl := { masterSlaveN := true, recenter := false } }
  let d :=
    { d with
      vidCtl :=
        { d.vidCtl with enable := true, underflowEnable := true, frameCounterReset := true } }
  let d :=
    if hdmiMonitor then
      let d := { d with sched := { d.sched with modeHdmi := true } }
      if e.hdmiActiveTimesOut then { d with log := d.log ++ [.hdmiActiveWarn] } else d
    else
      let d := { d with ramPacketConfig := { d.ramPacketConfig with enableFlag := false } }
      let d := { d with sched := { d.sched with modeHdmi := false } }
      if e.hdmiActiveTimesOut then { d with log := d.log ++ [.hdmiInactiveWarn] } else d
  if hdmiMonitor then
    let d := if e.hdmiActiveTimesOut then { d with log := d.log ++ [.hdmiActiveWarnOn] } else d
    let d := { d with sched := { d.sched with vertAlwaysKeepout := true } }
    let d := { d with ramPacketConfig := { enableFlag := true, slots := 0 } }
    let d := vc4_hdmi_set_infoframes e streaming d
    let d := { d with fifoCtl := { d.fifoCtl with recenter := false } }
    let d := { d with fifoCtl := { d.fifoCtl with recenter := true } }
    let d := { d with fifoCtl := { d.fifoCtl with recenter := false } }
    let d := { d with fifoCtl := { d.fifoCtl with recenter := true } }
    if e.recenterTimesOut then { d with log := d.log ++ [.recenterWarn] } else d
  else d

/-- vc4_hdmi_encoder_enable (source lines 875-1025).  The power reference
is taken first (pm_runtime_get_sync raises the usage count even when it
fails); each clock step aborts with an early return on failure, and only
the HSM-enable failure disables the pixel clock before returning; on
success the hardware tail runs.  hdmiMonitor is the EDID-derived HDMI
capability flag, quantLimited the mode's default quantization range
(computed by the external drm helper), streaming the audio streaming
flag. -/
def vc4_hdmi_encoder_enable (gen : Gen) (e : Env) (m : Mode)
    (hdmiMonitor quantLimited streaming : Bool) (d : Dev) : Dev × EnableOutcome :=
  let d := { d with powerRefs := d.powerRefs + 1 }
  if e.pmGetSyncRet < 0 then
    ({ d with log := d.log ++ [.powerGetError] }, .powerFailed)
  else
    let pixel_rate := m.clock * 1000 * (if m.dblclk then 2 else 1)
    if e.pixelSetRateRet ≠ 0 then
      ({ d with log := d.log ++ [.pixelSetRateError] }, .pixelSetFailed)
    else
      let d := { d with pixelClkRate := pixel_rate }
      if e.pixelEnableRet ≠ 0 then
        ({ d with log := d.log ++ [.pixelEnableError] }, .pixelEnableFailed)
      else
        let d := { d with pixelClkOn := true }
        let hsm_rate :=
          match gen with
          | .vc4 => vc4_hdmi_calc_hsm_clock pixel_rate
          | .vc5 => vc5_hdmi_calc_hsm_clock pixel_rate
        if e.hsmSetRateRet ≠ 0 then
          ({ d with log := d.log ++ [.hsmSetRateError] }, .hsmSetFailed)
        else
          let d := { d with hsmClkRate := hsm_rate }
          if e.hsmEnableRet ≠ 0 then
            ({ d with pixelClkOn := false, log := d.log ++ [.hsmEnableError] },
             .hsmEnableFailed)
          else
            let d := { d with hsmClkOn := true }
            (vc4_hdmi_enable_hw gen e m hdmiMonitor quantLimited streaming d,
             .completed)

/-- vc4_hdmi_encoder_disable (source lines 679-698): zero the packet-RAM
config, run the PHY disable hook when the variant has one (only the
first-generation table does), clear the video enable bit, disable both
clocks, and release the power reference; a release failure is only
logged. -/
def vc4_hdmi_encoder_disable (gen : Gen) (e : Env) (d : Dev) : Dev :=
  let d := { d with ramPacketConfig := { enableFlag := false, slots := 0 } }
  let d :=
    match gen with
    | .vc4 => phyDisableHook d
    | .vc5 => d
  let d := { d with vidCtl := { d.vidCtl with enable := false } }
  let d := { d with hsmClkOn := false }
  let d := { d with pixelClkOn := false }
  let d := { d with powerRefs := d.powerRefs - 1 }
  if e.pmPutRet < 0 then { d with log := d.log ++ [.powerPutError] } else d

/-- A 1280x720p59.94 mode as a concrete sample input. -/
def mode720p : Mode :=
  { clock := 74250,
    hdisplay := 1280,
    hsync_start := 1390,
    hsync_end := 1430,
    htotal := 1650,
    crtc_vdisplay := 720,
    crtc_vsync_start := 725,
    crtc_vsync_end := 730,
    crtc_vtotal := 750,
    dblclk := false,
    interlace := false,
    phsync := true,
    pvsync := true }

/-- An environment where every collaborator succeeds and no poll times
out; the packed frame lengths are the standard AVI (17), SPD (29) and
audio (14) infoframe sizes. -/
def okEnv : Env :=
  { pmGetSyncRet := 0,
    pixelSetRateRet := 0,
    pixelEnableRet := 0,
    hsmSetRateRet := 0,
    hsmEnableRet := 0,
    packetIdleTimesOut := false,
    packetStartTimesOut := false,
    hdmiActiveTimesOut := false,
    recenterTimesOut := false,
    aviBytes := List.replicate 17 0,
    spdBytes := List.replicate 29 0,
    audioBytes := List.replicate 14 0,
    pmPutRet := 0 }

/-- okEnv with the HSM set-rate call failing. -/
def envHsmSetFail : Env :=
  { okEnv with hsmSetRateRet := -EINVAL }

/-- okEnv with the HSM prepare-enable call failing. -/
def envHsmEnableFail : Env :=
  { okEnv with hsmEnableRet := -EINVAL }

/-- okEnv with the infoframe-slot idle poll exceeding its deadline. -/
def envIdleTimeout : Env :=
  { okEnv with packetIdleTimesOut := true }

/-- okEnv with the infoframe-slot active poll (after setting the slot's
enable bit) exceeding its deadline. -/
def envStartTimeout : Env :=
  { okEnv with packetStartTimesOut := true }

/-- For a plugged receiver (nonzero speaker-allocation byte) the source
scan and the first-match-in-table-order reading coincide, at every running
index. -/
theorem chAllocScan_eq_firstMatch (spk spk_mask ch : Nat) (h : spk ≠ 0) :
    ∀ (l : List SpkAllocEntry) (i : Nat),
      chAllocScan spk spk_mask ch i l = firstMatchIdxAux spk_mask ch i l := by
  intro l
  induction l with
  | nil => intro i; rfl
  | cons cap rest ih =>
    intro i
    unfold chAllocScan firstMatchIdxAux
    rw [if_neg (fun hc => h hc.1)]
    by_cases h1 : cap.n_ch = ch
    · by_cases h2 : cap.mask = spk_mask &&& cap.mask
      · rw [if_neg (not_not_intro h1), if_neg (not_not_intro h2),
          if_pos ⟨h1, h2.symm⟩]
      · rw [if_neg (not_not_intro h1), if_pos h2,
          if_neg (fun hc => h2 hc.2.symm)]
        exact ih (i + 1)
    · rw [if_pos h1, if_neg (fun hc => h1 hc.1)]
      exact ih (i + 1)

/-- Claim C2, counterexample: with a zero speaker-allocation byte and a
6-channel request the source lookup returns index 0 (the stereo row, whose
channel count is 2, not 6), while no row at all has channel count 6 and a
required mask contained in the empty presence mask (the first-match
reading yields -EINVAL): the lookup is not the plain first-match scan the
claim states. -/
theorem claim2_counterexample :
    hdmi_codec_get_ch_alloc_table_idx 0 6 = 0 ∧
    chAllocFirstMatchSpec 0 6 = -EINVAL ∧
    (hdmi_codec_channel_alloc.getD 0 ⟨0, 0, 0⟩).n_ch = 2 := by
  decide

/-- Claim C2, amended: for a nonzero speaker-allocation byte the lookup
returns the index of the first table row, in fixed table order, whose
channel count equals the request and whose required mask is contained in
the expanded presence mask; for a zero byte it returns index 0 (the stereo
fallback) regardless of the requested count.  In particular, for the
presence mask FL|FR|LFE|FC|RL|RR (allocation byte 0x0f) and 6 channels it
returns index 3, whose allocation code is 0x0b. -/
theorem claim2_theorem :
    (∀ spk ch : Nat,
      hdmi_codec_get_ch_alloc_table_idx spk ch =
        if spk = 0 then 0 else chAllocFirstMatchSpec spk ch) ∧
    hdmi_codec_get_ch_alloc_table_idx 0x0f 6 = 3 ∧
    (hdmi_codec_channel_alloc.getD 3 ⟨0, 0, 0⟩).ca_id = 0x0b ∧
    chAllocFirstMatchSpec 0x0f 6 = 3 := by
  refine ⟨?_, by decide, by decide, by decide⟩
  intro spk ch
  by_cases h : spk = 0
  · subst h
    rfl
  · rw [if_neg h]
    exact chAllocScan_eq_firstMatch spk _ ch h hdmi_codec_channel_alloc 0

/-- Claim C4: the audio-prepare path selects the compressed/high-bit-rate
MAI framing exactly when the IEC958 byte-0 non-audio flag is set and the
channel count is 8, and the PCM framing in every other case. -/
theorem claim4_theorem :
    ∀ (gen : Gen) (spk ch rate iec0 clk : Nat),
      ((vc4_hdmi_audio_prepare gen spk ch rate iec0 clk).maiAudioFormat = .hbr ↔
        iec0 &&& IEC958_AES0_NONAUDIO ≠ 0 ∧ ch = 8) ∧
      ((vc4_hdmi_audio_prepare gen spk ch rate iec0 clk).maiAudioFormat = .pcm ↔
        ¬ (iec0 &&& IEC958_AES0_NONAUDIO ≠ 0 ∧ ch = 8)) := by
  intro gen spk ch rate iec0 clk
  unfold vc4_hdmi_audio_prepare
  by_cases h : iec0 &&& IEC958_AES0_NONAUDIO ≠ 0 ∧ ch = 8 <;>
    cases gen <;> simp [h]

/-- Claim C5, counterexample: at pixel rate 150000001 the second
generation formula returns 151500000, strictly below pixel_rate * 1.01
(which exceeds 151500001), because the source divides by 100 before
multiplying by 101; so the value is not max(108 MHz, pixel_rate * 1.01)
under any rounding of that product. -/
theorem claim5_counterexample :
    vc5_hdmi_calc_hsm_clock 150000001 = 151500000 ∧
    vc5HsmClockSpecFormula 150000001 = 151500001 ∧
    vc5_hdmi_calc_hsm_clock 150000001 ≠ vc5HsmClockSpecFormula 150000001 ∧
    100 * vc5_hdmi_calc_hsm_clock 150000001 < 150000001 * 101 := by
  decide

/-- Claim C5, amended: the first-generation formula is the constant
VC4_HSM_CLOCK for every pixel rate; the second-generation formula is
max(108 MHz, (pixel_rate / 100) * 101) with the integer division performed
first, which agrees with max(108 MHz, pixel_rate * 1.01) exactly whenever
100 divides the pixel rate (as it does for every rate the driver passes,
a mode clock in kHz times 1000 times the pixel-repetition factor). -/
theorem claim5_theorem :
    ∀ p : Nat,
      vc4_hdmi_calc_hsm_clock p = VC4_HSM_CLOCK ∧
      vc5_hdmi_calc_hsm_clock p = max 108000000 (p / 100 * 101) ∧
      (100 ∣ p → vc5_hdmi_calc_hsm_clock p = vc5HsmClockSpecFormula p) := by
  intro p
  refine ⟨rfl, rfl, ?_⟩
  rintro ⟨k, rfl⟩
  unfold vc5_hdmi_calc_hsm_clock vc5HsmClockSpecFormula
  have h1 : 100 * k / 100 * 101 = k * 101 := by omega
  have h2 : 100 * k * 101 / 100 = k * 101 := by
    have h3 : 100 * k * 101 = k * 101 * 100 := by ring
    rw [h3, Nat.mul_div_cancel _ (by norm_num)]
  rw [h1, h2]

/-- Claim C5, witness at the 1080p pixel rate 148500000 = 100 * 1485000. -/
theorem claim5_witness :
    vc5_hdmi_calc_hsm_clock 148500000 = vc5HsmClockSpecFormula 148500000 :=
  (claim5_theorem 148500000).2.2 ⟨1485000, by norm_num⟩

/-- Claim C6: for every sample rate and mode clock, the audio-prepare path
programs N = 128 * rate / 1000 into the CRP configuration (with the
external-CTS enable flag), and writes CTS = pixel_clock_hz * N /
(128 * rate), integer division with the pixel clock in Hz, identically
into both CTS registers. -/
theorem claim6_theorem :
    ∀ (gen : Gen) (spk ch rate iec0 clk : Nat),
      (vc4_hdmi_audio_prepare gen spk ch rate iec0 clk).nCts.crpCfg.n =
        128 * rate / 1000 ∧
      (vc4_hdmi_audio_prepare gen spk ch rate iec0 clk).nCts.crpCfg.externalCtsEn =
        true ∧
      (vc4_hdmi_audio_prepare gen spk ch rate iec0 clk).nCts.cts_0 =
        clk * 1000 * (128 * rate / 1000) / (128 * rate) ∧
      (vc4_hdmi_audio_prepare gen spk ch rate iec0 clk).nCts.cts_1 =
        (vc4_hdmi_audio_prepare gen spk ch rate iec0 clk).nCts.cts_0 := by
  intro gen spk ch rate iec0 clk
  cases gen <;> exact ⟨rfl, rfl, rfl, rfl⟩

set_option maxRecDepth 16384 in
/-- Claim C7: the channel-map table is the full 8-channel table exactly
when the expanded presence mask has a bit outside the front stereo pair
FL|FR, and the stereo-only table otherwise; equivalently, exactly when the
(7-bit) speaker-allocation byte has any group bit other than the
front-pair bit 0. -/
theorem claim7_theorem :
    ∀ spk : Nat, spk < 128 →
      (hdmi_codec_eld_chmap spk = hdmi_codec_8ch_chmaps ↔
        hdmi_codec_spk_mask_from_alloc spk &&& compl32 (FL ||| FR) ≠ 0) ∧
      (hdmi_codec_eld_chmap spk = hdmi_codec_stereo_chmaps ↔
        hdmi_codec_spk_mask_from_alloc spk &&& compl32 (FL ||| FR) = 0) ∧
      (hdmi_codec_eld_chmap spk = hdmi_codec_8ch_chmaps ↔ spk &&& 0x7e ≠ 0) := by
  decide

/-- Claim C7, witness at the allocation byte 0x0f (front pair, LFE, front
center, rear pair): the 8-channel table is selected. -/
theorem claim7_witness :
    hdmi_codec_eld_chmap 0x0f = hdmi_codec_8ch_chmaps :=
  ((claim7_theorem 0x0f (by decide)).2.2).mpr (by decide)

/-- Claim C8: for both generations the timing registers written are a
function of the mode's timing fields and flags alone (independent of the
prior register state), and applying the same mode twice leaves exactly the
register state of a single application. -/
theorem claim8_theorem :
    ∀ (m : Mode) (d : Dev),
      (vc4_hdmi_set_timings m d).timingRegs = .v4 (vc4TimingVals m) ∧
      vc4_hdmi_set_timings m (vc4_hdmi_set_timings m d) = vc4_hdmi_set_timings m d ∧
      (vc5_hdmi_set_timings m d).timingRegs = .v5 (vc5TimingVals m) ∧
      vc5_hdmi_set_timings m (vc5_hdmi_set_timings m d) = vc5_hdmi_set_timings m d := by
  intro m d
  exact ⟨rfl, rfl, rfl, rfl⟩

/-- Claim C9, counterexample: the packing step's bound is the stride
itself (36 bytes), and at packed length 36 the copy loop still runs its
iteration at i = 35, whose last read index 41 is outside the stride-sized
buffer. -/
theorem claim9_counterexample :
    hdmi_infoframe_pack (List.replicate 36 0) VC4_HDMI_PACKET_STRIDE = 36 ∧
    35 ∈ chunkStarts 36 ∧
    ¬ 35 + 6 < VC4_HDMI_PACKET_STRIDE := by
  decide

/-- Claim C9, amended: for every packed length strictly below the stride
(0 < len ≤ 35), every byte index the 7-bytes-per-iteration copy loop
reads, up to i + 6 on its last iteration, stays strictly within the
stride-sized buffer; the bound len = stride itself admitted by the packing
step is exactly the one length that would overrun (and real packed
infoframes never exceed 31 bytes). -/
theorem claim9_theorem :
    ∀ len i : Nat, 0 < len → len < VC4_HDMI_PACKET_STRIDE →
      i ∈ chunkStarts len → i + 6 < VC4_HDMI_PACKET_STRIDE := by
  intro len i hpos hlen hi
  unfold chunkStarts at hi
  rw [List.mem_filter] at hi
  obtain ⟨hr, hmod⟩ := hi
  rw [List.mem_range] at hr
  have h7 : i % 7 = 0 := by simpa using hmod
  unfold VC4_HDMI_PACKET_STRIDE at hlen ⊢
  omega

/-- Claim C9, witness at the maximal real packed length 31 and its last
loop iteration i = 28. -/
theorem claim9_witness :
    (0 < 31 ∧ 31 < VC4_HDMI_PACKET_STRIDE ∧ 28 ∈ chunkStarts 31) ∧
      28 + 6 < VC4_HDMI_PACKET_STRIDE :=
  ⟨by decide, claim9_theorem 31 28 (by decide) (by decide) (by decide)⟩

/-- Claim C1, counterexample: with the HSM set-rate call failing (and
everything before it succeeding), vc4_hdmi_encoder_enable returns with the
power-domain reference still held and the pixel clock still enabled - the
enable path does not release the already-acquired resources. -/
theorem claim1_counterexample :
    (vc4_hdmi_encoder_enable .vc4 envHsmSetFail mode720p true true false initDev).2 =
      EnableOutcome.hsmSetFailed ∧
    (vc4_hdmi_encoder_enable .vc4 envHsmSetFail mode720p true true false
        initDev).1.powerRefs = 1 ∧
    (vc4_hdmi_encoder_enable .vc4 envHsmSetFail mode720p true true false
        initDev).1.pixelClkOn = true ∧
    (vc4_hdmi_encoder_enable .vc4 envHsmSetFail mode720p true true false
        initDev).1.hsmClkOn = false := by
  decide

/-- Claim C1, amended: every clock-setup failure aborts the transition,
but the enable path itself retains the power-domain reference in all four
cases; the pixel clock is disabled before returning only in the HSM-enable
failure case, and is left enabled on an HSM set-rate failure.  The cleanup
the claim describes is what a subsequent vc4_hdmi_encoder_disable call
performs: after any aborted enable it leaves both clocks disabled and the
power reference released. -/
theorem claim1_theorem :
    ∀ (gen : Gen) (e e2 : Env) (m : Mode) (hm ql st : Bool),
      ((vc4_hdmi_encoder_enable gen e m hm ql st initDev).2 = .pixelSetFailed →
        (vc4_hdmi_encoder_enable gen e m hm ql st initDev).1.powerRefs = 1 ∧
        (vc4_hdmi_encoder_enable gen e m hm ql st initDev).1.pixelClkOn = false ∧
        (vc4_hdmi_encoder_enable gen e m hm ql st initDev).1.hsmClkOn = false) ∧
      ((vc4_hdmi_encoder_enable gen e m hm ql st initDev).2 = .pixelEnableFailed →
        (vc4_hdmi_encoder_enable gen e m hm ql st initDev).1.powerRefs = 1 ∧
        (vc4_hdmi_encoder_enable gen e m hm ql st initDev).1.pixelClkOn = false ∧
        (vc4_hdmi_encoder_enable gen e m hm ql st initDev).1.hsmClkOn = false) ∧
      ((vc4_hdmi_encoder_enable gen e m hm ql st initDev).2 = .hsmSetFailed →
        (vc4_hdmi_encoder_enable gen e m hm ql st initDev).1.powerRefs = 1 ∧
        (vc4_hdmi_encoder_enable gen e m hm ql st initDev).1.pixelClkOn = true ∧
        (vc4_hdmi_encoder_enable gen e m hm ql st initDev).1.hsmClkOn = false) ∧
      ((vc4_hdmi_encoder_enable gen e m hm ql st initDev).2 = .hsmEnableFailed →
        (vc4_hdmi_encoder_enable gen e m hm ql st initDev).1.powerRefs = 1 ∧
        (vc4_hdmi_encoder_enable gen e m hm ql st initDev).1.pixelClkOn = false ∧
        (vc4_hdmi_encoder_enable gen e m hm ql st initDev).1.hsmClkOn = false) ∧
      ((vc4_hdmi_encoder_enable gen e m hm ql st initDev).2 ≠ .completed →
        (vc4_hdmi_encoder_disable gen e2
            (vc4_hdmi_encoder_enable gen e m hm ql st initDev).1).pixelClkOn = false ∧
        (vc4_hdmi_encoder_disable gen e2
            (vc4_hdmi_encoder_enable gen e m hm ql st initDev).1).hsmClkOn = false ∧
        (vc4_hdmi_encoder_disable gen e2
            (vc4_hdmi_encoder_enable gen e m hm ql st initDev).1).powerRefs = 0) := by
  intro gen e e2 m hm ql st
  have hdis : ∀ d : Dev, d.powerRefs = 1 →
      (vc4_hdmi_encoder_disable gen e2 d).pixelClkOn = false ∧
      (vc4_hdmi_encoder_disable gen e2 d).hsmClkOn = false ∧
      (vc4_hdmi_encoder_disable gen e2 d).powerRefs = 0 := by
    intro d hd
    cases gen <;> by_cases hp : e2.pmPutRet < 0 <;>
      simp [vc4_hdmi_encoder_disable, phyDisableHook, hp, hd]
  simp only [vc4_hdmi_encoder_enable]
  split_ifs with c1 c2 c3 c4 c5 <;>
    refine ⟨?_, ?_, ?_, ?_, ?_⟩ <;>
      intro h <;>
        first
          | exact ⟨rfl, rfl, rfl⟩
          | exact hdis _ rfl
          | exact absurd rfl h
          | simp at h

/-- Claim C1, witness: the HSM-enable failure case, applied at a concrete
environment; the aborted enable leaves the pixel clock off but the power
reference held, and the subsequent disable releases everything. -/
theorem claim1_witness :
    ((vc4_hdmi_encoder_enable .vc4 envHsmEnableFail mode720p true true false
        initDev).1.powerRefs = 1 ∧
      (vc4_hdmi_encoder_enable .vc4 envHsmEnableFail mode720p true true false
        initDev).1.pixelClkOn = false ∧
      (vc4_hdmi_encoder_enable .vc4 envHsmEnableFail mode720p true true false
        initDev).1.hsmClkOn = false) ∧
    (vc4_hdmi_encoder_disable .vc4 okEnv
        (vc4_hdmi_encoder_enable .vc4 envHsmEnableFail mode720p true true false
          initDev).1).powerRefs = 0 :=
  ⟨(claim1_theorem .vc4 envHsmEnableFail okEnv mode720p true true false).2.2.2.1
      (by decide),
   ((claim1_theorem .vc4 envHsmEnableFail okEnv mode720p true true false).2.2.2.2
      (by decide)).2.2⟩

/-- Claim C3, counterexample: neither infoframe polling timeout aborts the
enable sequence.  With the slot-idle poll exceeding its deadline, the
enable run still completes: the AVI write's timeout is logged, the SPD
write is still attempted afterwards (its timeout is logged too, so no
error reached the caller of the AVI write), no packet RAM is written, and
the FIFO recenter sequence after the infoframe writes still executes.
With the slot-active poll exceeding its deadline instead, the enable run
also completes: both infoframes are fully written to packet RAM (16
words), both slots are left enabled (bits 2 and 3), both timeouts are only
logged, and the recenter sequence still executes. -/
theorem claim3_counterexample :
    (vc4_hdmi_encoder_enable .vc4 envIdleTimeout mode720p true true false initDev).2 =
      EnableOutcome.completed ∧
    LogTag.infoframeIdleError 2 ∈
      (vc4_hdmi_encoder_enable .vc4 envIdleTimeout mode720p true true false
        initDev).1.log ∧
    LogTag.infoframeIdleError 3 ∈
      (vc4_hdmi_encoder_enable .vc4 envIdleTimeout mode720p true true false
        initDev).1.log ∧
    (vc4_hdmi_encoder_enable .vc4 envIdleTimeout mode720p true true false
        initDev).1.packetRam = [] ∧
    (vc4_hdmi_encoder_enable .vc4 envIdleTimeout mode720p true true false
        initDev).1.fifoCtl.recenter = true ∧
    (vc4_hdmi_encoder_enable .vc4 envStartTimeout mode720p true true false initDev).2 =
      EnableOutcome.completed ∧
    LogTag.infoframeStartError 2 ∈
      (vc4_hdmi_encoder_enable .vc4 envStartTimeout mode720p true true false
        initDev).1.log ∧
    LogTag.infoframeStartError 3 ∈
      (vc4_hdmi_encoder_enable .vc4 envStartTimeout mode720p true true false
        initDev).1.log ∧
    (vc4_hdmi_encoder_enable .vc4 envStartTimeout mode720p true true false
        initDev).1.packetRam.length = 16 ∧
    (vc4_hdmi_encoder_enable .vc4 envStartTimeout mode720p true true false
        initDev).1.ramPacketConfig.slots = (1 <<< 2) ||| (1 <<< 3) ∧
    (vc4_hdmi_encoder_enable .vc4 envStartTimeout mode720p true true false
        initDev).1.fifoCtl.recenter = true := by
  decide

/-- Claim C3, amended: a slot-idle poll timeout during an infoframe write
abandons that write - nothing is copied into the packet RAM and the slot's
enable bit stays cleared - and logs an error; a slot-active poll timeout
after setting the slot's enable bit is merely logged - the packet stays
written and the slot stays enabled.  In neither case does the
infoframe-write operation return anything to its caller, and the enable
sequence is not aborted: whenever the power and clock steps succeed the
enable run completes regardless of infoframe polling timeouts. -/
theorem claim3_theorem :
    ∀ (e : Env) (ty : Nat) (bytes : List Nat) (d : Dev),
      bytes.length ≤ VC4_HDMI_PACKET_STRIDE →
      (e.packetIdleTimesOut = true →
        (vc4_hdmi_write_infoframe e ty bytes d).packetRam = d.packetRam ∧
        (vc4_hdmi_write_infoframe e ty bytes d).ramPacketConfig.enableFlag =
          d.ramPacketConfig.enableFlag ∧
        (vc4_hdmi_write_infoframe e ty bytes d).ramPacketConfig.slots =
          clearBit32 d.ramPacketConfig.slots (ty - 0x80) ∧
        LogTag.infoframeIdleError (ty - 0x80) ∈
          (vc4_hdmi_write_infoframe e ty bytes d).log) ∧
      (e.packetIdleTimesOut = false → e.packetStartTimesOut = true →
        (vc4_hdmi_write_infoframe e ty bytes d).packetRam =
          d.packetRam ++ ramWrites bytes bytes.length
            (VC4_HDMI_PACKET_STRIDE * (ty - 0x80)) ∧
        (vc4_hdmi_write_infoframe e ty bytes d).ramPacketConfig.slots =
          clearBit32 d.ramPacketConfig.slots (ty - 0x80) ||| (1 <<< (ty - 0x80)) ∧
        LogTag.infoframeStartError (ty - 0x80) ∈
          (vc4_hdmi_write_infoframe e ty bytes d).log) ∧
      (∀ (gen : Gen) (m : Mode) (hm ql st : Bool) (d0 : Dev),
        e.pmGetSyncRet = 0 → e.pixelSetRateRet = 0 → e.pixelEnableRet = 0 →
        e.hsmSetRateRet = 0 → e.hsmEnableRet = 0 →
        (vc4_hdmi_encoder_enable gen e m hm ql st d0).2 =
          EnableOutcome.completed) := by
  intro e ty bytes d hlen
  have hpack : hdmi_infoframe_pack bytes VC4_HDMI_PACKET_STRIDE =
      (bytes.length : Int) := by
    unfold hdmi_infoframe_pack
    rw [if_neg (by omega)]
  have hnn : ¬ ((bytes.length : Int) < 0) := by omega
  have hcompl : ∀ (gen : Gen) (m : Mode) (hm ql st : Bool) (d0 : Dev),
      e.pmGetSyncRet = 0 → e.pixelSetRateRet = 0 → e.pixelEnableRet = 0 →
      e.hsmSetRateRet = 0 → e.hsmEnableRet = 0 →
      (vc4_hdmi_encoder_enable gen e m hm ql st d0).2 =
        EnableOutcome.completed := by
    intro gen m hm ql st d0 h1 h2 h3 h4 h5
    unfold vc4_hdmi_encoder_enable
    simp [h1, h2, h3, h4, h5]
  refine ⟨?_, ?_, hcompl⟩
  · intro ht
    have hret : ¬ (wait_for_ret e.packetIdleTimesOut = 0) := by
      rw [ht]
      decide
    refine ⟨?_, ?_, ?_, ?_⟩ <;>
      · unfold vc4_hdmi_write_infoframe vc4_hdmi_stop_packet
        by_cases hf : d.ramPacketConfig.enableFlag <;>
          simp [hpack, hnn, hret, hf]
  · intro ht hs
    have hret : wait_for_ret e.packetIdleTimesOut = 0 := by
      rw [ht]
      decide
    have hret2 : ¬ (wait_for_ret e.packetStartTimesOut = 0) := by
      rw [hs]
      decide
    refine ⟨?_, ?_, ?_⟩ <;>
      · unfold vc4_hdmi_write_infoframe vc4_hdmi_stop_packet
        by_cases hf : d.ramPacketConfig.enableFlag <;>
          simp [hpack, hnn, hret, hret2, hf]

/-- Claim C3, witness: the amended behaviour at a concrete timed-out AVI
write for each polling site, and a concrete completing enable run under
the active-poll timeout. -/
theorem claim3_witness :
    (vc4_hdmi_write_infoframe envIdleTimeout HDMI_INFOFRAME_TYPE_AVI
        (List.replicate 17 0) initDev).packetRam = [] ∧
    LogTag.infoframeStartError 2 ∈
      (vc4_hdmi_write_infoframe envStartTimeout HDMI_INFOFRAME_TYPE_AVI
        (List.replicate 17 0) initDev).log ∧
    (vc4_hdmi_encoder_enable .vc4 envStartTimeout mode720p true true false initDev).2 =
      EnableOutcome.completed := by
  have h1 := claim3_theorem envIdleTimeout HDMI_INFOFRAME_TYPE_AVI
    (List.replicate 17 0) initDev (by decide)
  have h2 := claim3_theorem envStartTimeout HDMI_INFOFRAME_TYPE_AVI
    (List.replicate 17 0) initDev (by decide)
  exact ⟨(h1.1 rfl).1.trans rfl, (h2.2.1 rfl rfl).2.2,
    h2.2.2 .vc4 mode720p true true false initDev rfl rfl rfl rfl rfl⟩

/-- The scan either fails (negative result) or returns an index between
its running index and the end of the remaining list. -/
theorem chAllocScan_range (spk spk_mask ch : Nat) :
    ∀ (l : List SpkAllocEntry) (i : Nat),
      chAllocScan spk spk_mask ch i l < 0 ∨
      ((i : Int) ≤ chAllocScan spk spk_mask ch i l ∧
        chAllocScan spk spk_mask ch i l < (i : Int) + l.length) := by
  intro l
  induction l with
  | nil =>
    intro i
    left
    show -EINVAL < 0
    decide
  | cons cap rest ih =>
    intro i
    unfold chAllocScan
    by_cases h1 : spk = 0 ∧ cap.ca_id = 0
    · rw [if_pos h1]
      right
      simp only [List.length_cons]
      constructor
      · exact le_refl _
      · push_cast
        omega
    · rw [if_neg h1]
      by_cases h2 : cap.n_ch ≠ ch
      · rw [if_pos h2]
        rcases ih (i + 1) with h | ⟨ha, hb⟩
        · exact Or.inl h
        · right
          simp only [List.length_cons]
          push_cast at ha hb ⊢
          omega
      · rw [if_neg h2]
        by_cases h3 : ¬ (cap.mask = spk_mask &&& cap.mask)
        · rw [if_pos h3]
          rcases ih (i + 1) with h | ⟨ha, hb⟩
          · exact Or.inl h
          · right
            simp only [List.length_cons]
            push_cast at ha hb ⊢
            omega
        · rw [if_neg h3]
          right
          simp only [List.length_cons]
          constructor
          · exact le_refl _
          · push_cast
            omega

/-- Every row of the allocation table (and the out-of-range default)
carries a CEA code between 0 and 31. -/
theorem chAllocTable_ca_id_bounds :
    ∀ k : Nat, k < 32 →
      0 ≤ (hdmi_codec_channel_alloc.getD k ⟨0, 0, 0⟩).ca_id ∧
      (hdmi_codec_channel_alloc.getD k ⟨0, 0, 0⟩).ca_id ≤ 31 := by
  decide

/-- The allocation code stored by prepare is either the unknown marker -1
or a CEA code between 0 and 31, for every ELD byte and channel count. -/
theorem audioPrepareChmapIdx_cases (spk ch : Nat) :
    audioPrepareChmapIdx spk ch = HDMI_CODEC_CHMAP_IDX_UNKNOWN ∨
    (0 ≤ audioPrepareChmapIdx spk ch ∧ audioPrepareChmapIdx spk ch ≤ 31) := by
  simp only [audioPrepareChmapIdx, hdmi_codec_get_ch_alloc_table_idx]
  rcases chAllocScan_range spk (hdmi_codec_spk_mask_from_alloc spk) ch
      hdmi_codec_channel_alloc 0 with h | ⟨h1, h2⟩
  · rw [if_pos h]
    exact Or.inl rfl
  · rw [if_neg (by omega)]
    right
    have hlen : hdmi_codec_channel_alloc.length = 32 := by decide
    rw [hlen] at h2
    have hk : (chAllocScan spk (hdmi_codec_spk_mask_from_alloc spk) ch 0
        hdmi_codec_channel_alloc).toNat < 32 := by omega
    exact chAllocTable_ca_id_bounds _ hk

/-- Claim C10, counterexample, two reachable states.  First, with a
stereo-only ELD (byte 1) at startup and a 5.1 ELD (byte 0x0f) at the
6-channel prepare - reachable because the driver re-reads the ELD at each
call and hotplug updates it in between - the stored allocation code 0x0b
indexes the 2-row stereo table far out of bounds, the evaluated lookup
comes back empty, and since chmap_idx is not the unknown marker the loop
dereferences map elements through that out-of-bounds row.  Second, with
the same stereo ELD at both calls and a failed 6-channel lookup,
chmap_idx = -1 and the lookup chmap[-1] is still evaluated before the
per-element unknown check, its index outside the table's bounds. -/
theorem claim10_counterexample :
    (reachableAudioState 1 0x0f 6).chmap = some hdmi_codec_stereo_chmaps ∧
    (reachableAudioState 1 0x0f 6).chmap_idx = 0x0b ∧
    (reachableAudioState 1 0x0f 6).chmap_idx ≠ HDMI_CODEC_CHMAP_IDX_UNKNOWN ∧
    ¬ (0 ≤ (reachableAudioState 1 0x0f 6).chmap_idx ∧
        (reachableAudioState 1 0x0f 6).chmap_idx <
          (hdmi_codec_stereo_chmaps.length : Int)) ∧
    (vc4_chmap_ctl_get (reachableAudioState 1 0x0f 6)).map CtlGetResult.mapLookup =
      some none ∧
    (reachableAudioState 1 1 6).chmap = some hdmi_codec_stereo_chmaps ∧
    (reachableAudioState 1 1 6).chmap_idx = HDMI_CODEC_CHMAP_IDX_UNKNOWN ∧
    (vc4_chmap_ctl_get (reachableAudioState 1 1 6)).map CtlGetResult.mapLookup =
      some none := by
  decide

/-- Claim C10, amended: vc4_chmap_ctl_get computes the chmap[chmap_idx]
lookup from the stored index before the per-element unknown check.  A
resolved allocation code always lies between 0 and 31, so whenever the
selected table is the 8-channel one (33 rows) the index stays within its
bounds; when chmap_idx is the unknown marker -1 the evaluated lookup index
is out of bounds but no table element is read through it - every returned
slot value is 0.  Beyond that the claimed bound fails: table selection and
allocation resolution read the ELD independently, and with a stereo table
and a resolved code of 2 or more (reachable after an ELD change between
startup and prepare) the index is outside the 2-row stereo table while the
unknown check does not fire, so the loop dereferences through an
out-of-bounds row. -/
theorem claim10_theorem :
    ∀ spkStartup spkPrepare ch : Nat,
      (reachableAudioState spkStartup spkPrepare ch).chmap =
        some (hdmi_codec_eld_chmap spkStartup) ∧
      (vc4_chmap_ctl_get (reachableAudioState spkStartup spkPrepare ch)).map
          CtlGetResult.mapLookup =
        some (chmapLookup (hdmi_codec_eld_chmap spkStartup)
          (reachableAudioState spkStartup spkPrepare ch).chmap_idx) ∧
      ((reachableAudioState spkStartup spkPrepare ch).chmap_idx ≠
          HDMI_CODEC_CHMAP_IDX_UNKNOWN →
        0 ≤ (reachableAudioState spkStartup spkPrepare ch).chmap_idx ∧
        (reachableAudioState spkStartup spkPrepare ch).chmap_idx ≤ 31 ∧
        (hdmi_codec_eld_chmap spkStartup = hdmi_codec_8ch_chmaps →
          (reachableAudioState spkStartup spkPrepare ch).chmap_idx <
            ((hdmi_codec_eld_chmap spkStartup).length : Int))) ∧
      ((reachableAudioState spkStartup spkPrepare ch).chmap_idx =
          HDMI_CODEC_CHMAP_IDX_UNKNOWN →
        chmapLookup (hdmi_codec_eld_chmap spkStartup)
          (reachableAudioState spkStartup spkPrepare ch).chmap_idx = none ∧
        (vc4_chmap_ctl_get (reachableAudioState spkStartup spkPrepare ch)).map
          CtlGetResult.values = some (List.replicate 8 0)) ∧
      (hdmi_codec_eld_chmap spkStartup = hdmi_codec_stereo_chmaps →
        2 ≤ (reachableAudioState spkStartup spkPrepare ch).chmap_idx →
        chmapLookup (hdmi_codec_eld_chmap spkStartup)
          (reachableAudioState spkStartup spkPrepare ch).chmap_idx = none ∧
        (reachableAudioState spkStartup spkPrepare ch).chmap_idx ≠
          HDMI_CODEC_CHMAP_IDX_UNKNOWN) := by
  intro s1 s2 ch
  have hidx : (reachableAudioState s1 s2 ch).chmap_idx =
      audioPrepareChmapIdx s2 ch := rfl
  refine ⟨rfl, rfl, ?_, ?_, ?_⟩
  · rw [hidx]
    intro hne
    rcases audioPrepareChmapIdx_cases s2 ch with h | ⟨h1, h2⟩
    · exact absurd h hne
    · refine ⟨h1, h2, ?_⟩
      intro h8
      rw [h8]
      have hl : ((hdmi_codec_8ch_chmaps.length : Nat) : Int) = 33 := rfl
      rw [hl]
      omega
  · rw [hidx]
    intro hu
    constructor
    · rw [hu]
      unfold chmapLookup
      exact dif_neg (fun hcon => absurd hcon.1 (by decide))
    · have hmap : (vc4_chmap_ctl_get (reachableAudioState s1 s2 ch)).map
          CtlGetResult.values =
          some ((List.range 8).map fun i =>
            if audioPrepareChmapIdx s2 ch = HDMI_CODEC_CHMAP_IDX_UNKNOWN then 0
            else (((chmapLookup (hdmi_codec_eld_chmap s1)
                  (audioPrepareChmapIdx s2 ch)).getD ⟨0, []⟩).map).getD i 0) := rfl
      rw [hmap, hu]
      simp
  · rw [hidx]
    intro hst hge
    constructor
    · rw [hst]
      unfold chmapLookup
      refine dif_neg ?_
      rintro ⟨hnn, hlt⟩
      have hlen : hdmi_codec_stereo_chmaps.length = 2 := rfl
      rw [hlen] at hlt
      omega
    · intro hcon
      rw [hcon] at hge
      exact absurd hge (by decide)

/-- Claim C10, witness: with the 5.1 ELD byte 0x0f at both calls and a
6-channel prepare, the resolved code is within 0..31 and within the
selected 8-channel table's bounds. -/
theorem claim10_witness :
    0 ≤ (reachableAudioState 0x0f 0x0f 6).chmap_idx ∧
    (reachableAudioState 0x0f 0x0f 6).chmap_idx ≤ 31 ∧
    (reachableAudioState 0x0f 0x0f 6).chmap_idx <
      ((hdmi_codec_eld_chmap 0x0f).length : Int) := by
  have h := (claim10_theorem 0x0f 0x0f 6).2.2.1 (by decide)
  exact ⟨h.1, h.2.1, h.2.2 (by decide)⟩

end Vc4Hdmi
